/-
Verification of the MazeRunner Python SDK's generic entity/collection
mapping layer (mazerunner/api_client.py, mazerunner/__init__.py).

The development shallowly embeds the relevant parts of the source:
Python values become the inductive `PyVal`, Python dicts become
association lists with Python's `dict.update` / `in` / `[]` semantics,
the transport's query-string normalization and status classification
become pure functions, and the stateful entity / collection methods
become explicit state-passing functions that also return the list of
network requests they issue.  Unbounded behaviours (the recursive
attribute-miss handler, pagination loops) are embedded with explicit
fuel; `diverge` / `Option.none` marks fuel exhaustion.
-/
import Mathlib

set_option maxHeartbeats 1000000
set_option maxRecDepth 10000

/-- Model of a Python value as it appears in entity field dicts and
request bodies: None, bool, number, string, list, dict. -/
inductive PyVal where
  | pyNone
  | pyBool (b : Bool)
  | pyNum (n : Int)
  | pyStr (s : String)
  | pyList (xs : List PyVal)
  | pyDict (xs : List (String × PyVal))

/-- Python truthiness (`bool(v)`): None, False, 0, "", [], {} are falsy. -/
def truthy : PyVal → Bool
  | PyVal.pyNone => false
  | PyVal.pyBool b => b
  | PyVal.pyNum n => decide (n ≠ 0)
  | PyVal.pyStr s => !s.isEmpty
  | PyVal.pyList xs => !xs.isEmpty
  | PyVal.pyDict xs => !xs.isEmpty

/-- Dictionary lookup (`d[k]` / `d.get(k)`): first entry with the key.
Real Python dicts have unique keys, so first-match agrees with them. -/
def dlookup {α : Type} : List (String × α) → String → Option α
  | [], _ => Option.none
  | p :: rest, k => if p.1 = k then some p.2 else dlookup rest k

/-- First-some choice: the value of `x` if present, else `y`
(used to state lookup behaviour of merged dicts). -/
def orLookup {α : Type} (x y : Option α) : Option α :=
  match x with
  | some v => some v
  | Option.none => y

/-- Single-key assignment `d[k] = v`: replace in place if the key is
present, append otherwise. -/
def dassign {α : Type} (d : List (String × α)) (k : String) (v : α) : List (String × α) :=
  if (dlookup d k).isSome then
    d.map (fun p => if p.1 = k then (p.1, v) else p)
  else
    d ++ [(k, v)]

/-- Python's `d.update(e)`: assign every entry of `e` into `d` in order. -/
def dupdate {α : Type} (d e : List (String × α)) : List (String × α) :=
  e.foldl (fun acc p => dassign acc p.1 p.2) d

theorem dlookup_map_set {α : Type} (d : List (String × α)) (k k' : String) (v : α) :
    dlookup (d.map (fun p => if p.1 = k then (p.1, v) else p)) k' =
      if k = k' then (dlookup d k').map (fun _ => v) else dlookup d k' := by
  induction d with
  | nil => by_cases h : k = k' <;> simp [dlookup, h]
  | cons p rest ih =>
    by_cases hp : p.1 = k
    · by_cases hk : k = k'
      · subst hk
        simp [dlookup, hp]
      · have hpk' : ¬ p.1 = k' := by rw [hp]; exact hk
        simp [dlookup, hp, hpk', hk, ih]
    · by_cases hpk' : p.1 = k'
      · by_cases hk : k = k'
        · rw [hk] at hp; exact absurd hpk' hp
        · have hk' : ¬ k' = k := fun h => hk h.symm
          simp [dlookup, hp, hpk', hk, hk']
      · simp [dlookup, hp, hpk', ih]

theorem dlookup_append {α : Type} (a b : List (String × α)) (k : String) :
    dlookup (a ++ b) k = orLookup (dlookup a k) (dlookup b k) := by
  induction a with
  | nil => simp [dlookup, orLookup]
  | cons p rest ih =>
    by_cases hp : p.1 = k <;> simp [dlookup, orLookup, hp, ih]

/-- Assignment has the expected lookup behaviour. -/
theorem dlookup_dassign {α : Type} (d : List (String × α)) (k k' : String) (v : α) :
    dlookup (dassign d k v) k' = if k = k' then some v else dlookup d k' := by
  unfold dassign
  by_cases hmem : (dlookup d k).isSome
  · rw [if_pos hmem, dlookup_map_set]
    by_cases hk : k = k'
    · subst hk
      rcases Option.isSome_iff_exists.mp hmem with ⟨w, hw⟩
      simp [hw]
    · simp [hk]
  · rw [if_neg hmem, dlookup_append]
    have hnone : dlookup d k = Option.none := Option.not_isSome_iff_eq_none.mp hmem
    by_cases hk : k = k'
    · subst hk
      simp [hnone, dlookup, orLookup]
    · cases h : dlookup d k'
      · simp [dlookup, orLookup, hk]
      · simp [orLookup, hk]

theorem mem_keys_of_dlookup_some {α : Type} {e : List (String × α)} {k : String} {v : α}
    (h : dlookup e k = some v) : k ∈ e.map Prod.fst := by
  induction e with
  | nil => simp [dlookup] at h
  | cons r rs ihr =>
    simp only [dlookup] at h
    by_cases hr : r.1 = k
    · simp [← hr]
    · rw [if_neg hr] at h
      simpa using Or.inr (ihr h)

/-- The key set of a key-unique dict `e` merged into `d` with
`d.update(e)`: entries of `e` win on every key collision, entries of
`d` survive otherwise. -/
theorem dlookup_dupdate {α : Type} (e : List (String × α)) :
    ∀ (d : List (String × α)) (k : String), (e.map Prod.fst).Nodup →
      dlookup (dupdate d e) k = orLookup (dlookup e k) (dlookup d k) := by
  induction e with
  | nil => intro d k _; simp [dupdate, dlookup, orLookup]
  | cons q e' ih =>
    intro d k hnodup
    have hnodup' : (e'.map Prod.fst).Nodup := by
      simp only [List.map_cons, List.nodup_cons] at hnodup
      exact hnodup.2
    have hq : q.1 ∉ e'.map Prod.fst := by
      simp only [List.map_cons, List.nodup_cons] at hnodup
      exact hnodup.1
    have step : dupdate d (q :: e') = dupdate (dassign d q.1 q.2) e' := by
      simp [dupdate, List.foldl_cons]
    rw [step, ih (dassign d q.1 q.2) k hnodup', dlookup_dassign]
    by_cases hk : q.1 = k
    · subst hk
      have : dlookup e' q.1 = Option.none := by
        cases h : dlookup e' q.1
        · rfl
        · exact absurd (mem_keys_of_dlookup_some h) hq
      simp [dlookup, orLookup, this]
    · simp [dlookup, orLookup, hk]

/-- A request URL as `urlparse` sees it: the non-query portion
(scheme, host and path, kept opaque) plus the query string, already
split into its `key=value` pairs in order. -/
structure PyUrl where
  address : String
  queryPairs : List (String × String)

/-- A value in the query-parameter dict handed to the HTTP library:
either a caller-supplied value (`raw`) or a set of strings obtained by
parsing the URL's own query string (`qset`, order irrelevant). -/
inductive QueryVal where
  | raw (v : PyVal)
  | qset (vs : List String)

/-- Model of `urlparse.parse_qs` composed with the `set(...)`
comprehension in `APIClient.api_request`: group the query pairs by key
and deduplicate each key's values into a set. -/
def parse_qs_sets (qp : List (String × String)) : List (String × QueryVal) :=
  (qp.map Prod.fst).dedup.map
    (fun k => (k, QueryVal.qset (((qp.filter (fun p => p.1 = k)).map Prod.snd).dedup)))

/-- Model of `urlunparse` on the parse result with `query=""`:
the URL is rewritten without its original query string. -/
def stripQuery (u : PyUrl) : PyUrl :=
  { u with queryPairs := [] }

/-- The effective query dict built by `APIClient.api_request`: the
URL-embedded query string is parsed into sets and then, when explicit
`query_params` were supplied (a non-empty dict), overwritten by them
via `dict.update`. -/
def api_request_query (u : PyUrl) (query_params : List (String × QueryVal)) :
    List (String × QueryVal) :=
  let query := parse_qs_sets u.queryPairs
  if query_params.isEmpty then query else dupdate query query_params

/-- The wire-level request `api_request` sends: the rewritten URL and
the merged query dict. -/
def api_request_wire (u : PyUrl) (query_params : List (String × QueryVal)) :
    PyUrl × List (String × QueryVal) :=
  (stripQuery u, api_request_query u query_params)

/-- In `Collection._iter_chunks`, a response's "next" link is followed
with `api_request(response["next"], query_params=query_params)`, where
`query_params` is the collection's original filter dict; this is the
wire effect of that call. -/
def follow_next_request (next_url : PyUrl) (query_params : List (String × QueryVal)) :
    PyUrl × List (String × QueryVal) :=
  api_request_wire next_url query_params

/-- Byte-for-byte character list comparison backing `py_startswith`. -/
def chars_start_with : List Char → List Char → Bool
  | _, [] => true
  | [], _ :: _ => false
  | c :: cs, d :: ds => (c = d) && chars_start_with cs ds

/-- Python's `s.startswith(pre)` on strings. -/
def py_startswith (s pre : String) : Bool :=
  chars_start_with s.data pre.data

/-- The value of `httplib.NO_CONTENT`. -/
def NO_CONTENT : Nat := 204

/-- The relevant observable pieces of a `requests` response object:
status code, raw body, Content-Type header, and the result of
attempting to parse the body as JSON (`Option.none` models the
`ValueError` raised by `resp.json()`). -/
structure HttpResp where
  status_code : Nat
  content : String
  contentType : Option String
  jsonBody : Option PyVal

/-- Python's `str(...)` of the Content-Type header as it appears in the
error message (`None` when the header is missing). -/
def showContentType : Option String → String
  | some s => s
  | Option.none => "None"

/-- The possible outcomes of `APIClient.api_request` after the response
has been received. -/
inductive ApiOutcome where
  | validationError (code : Nat) (body : String)
  | serverError (code : Nat) (body : String)
  | rawResponse (r : HttpResp)
  | noneResult
  | rawContent (s : String)
  | jsonResult (v : PyVal)

/-- Outcome classification of `APIClient.api_request`, translated
clause by clause from the source: `str(status).startswith("4")` raises
ValidationError with the raw body, `str(status).startswith("5")` raises
ServerError with the raw body, a streaming request returns the response
handle, a DELETE method or a 204 status yields None, a request that
does not expect JSON returns the raw content, a non-JSON content type
raises ValidationError, and a JSON parse failure raises
ValidationError. -/
def api_request_outcome (method : String) (stream : Bool) (expect_json_response : Bool)
    (resp : HttpResp) : ApiOutcome :=
  if py_startswith (Nat.repr resp.status_code) "4" then
    ApiOutcome.validationError resp.status_code resp.content
  else if py_startswith (Nat.repr resp.status_code) "5" then
    ApiOutcome.serverError resp.status_code resp.content
  else if stream then
    ApiOutcome.rawResponse resp
  else if method = "delete" ∨ resp.status_code = NO_CONTENT then
    ApiOutcome.noneResult
  else if expect_json_response = false then
    ApiOutcome.rawContent resp.content
  else if resp.contentType ≠ some "application/json" then
    ApiOutcome.validationError resp.status_code
      ("Bad response content type: " ++ showContentType resp.contentType
        ++ "\nContent:\n" ++ resp.content)
  else
    match resp.jsonBody with
    | some v => ApiOutcome.jsonResult v
    | Option.none =>
      ApiOutcome.validationError resp.status_code
        ("Bad response: Not json.\nContent:\n" ++ resp.content)

/-- The outcome classification described by the (amended) specification
sentence, written with numeric 4xx/5xx ranges and with the streaming
case decided before the no-content/DELETE case. -/
def outcome_spec (method : String) (stream : Bool) (expect_json_response : Bool)
    (resp : HttpResp) : ApiOutcome :=
  if 400 ≤ resp.status_code ∧ resp.status_code ≤ 499 then
    ApiOutcome.validationError resp.status_code resp.content
  else if 500 ≤ resp.status_code ∧ resp.status_code ≤ 599 then
    ApiOutcome.serverError resp.status_code resp.content
  else if stream then
    ApiOutcome.rawResponse resp
  else if method = "delete" ∨ resp.status_code = 204 then
    ApiOutcome.noneResult
  else if expect_json_response = false then
    ApiOutcome.rawContent resp.content
  else if resp.contentType ≠ some "application/json" then
    ApiOutcome.validationError resp.status_code
      ("Bad response content type: " ++ showContentType resp.contentType
        ++ "\nContent:\n" ++ resp.content)
  else
    match resp.jsonBody with
    | some v => ApiOutcome.jsonResult v
    | Option.none =>
      ApiOutcome.validationError resp.status_code
        ("Bad response: Not json.\nContent:\n" ++ resp.content)

/-- An entity's local field mapping (`BaseEntity._param_dict`). -/
def FieldDict : Type := List (String × PyVal)

/-- Result of an attribute access through `BaseEntity.__getattr__`:
the value (or AttributeError) reached, the field dict as it stands
afterwards, and the list of URLs fetched along the way; `diverge`
marks that the recursion does not finish within the available fuel. -/
inductive AttrResult where
  | ok (v : PyVal) (d : List (String × PyVal)) (fetched : List PyVal)
  | attrErr (item : String) (d : List (String × PyVal)) (fetched : List PyVal)
  | diverge

/-- Model of `BaseEntity.__getattr__` together with `BaseEntity.load`,
for an entity class with no related collections or related fields (the
generic `BaseEntity` has both maps empty, so `_update_related_fields`
is a no-op).  On a key miss the handler calls `load()`, which reads
`self.url` — itself an attribute access through `__getattr__`, since
`url` only ever lives in `_param_dict` — then issues one GET against
that URL (`server` maps a URL value to the response dict) and merges
the response into the field dict with `dict.update`; afterwards the
handler re-checks the key and raises AttributeError if it is still
absent.  `fuel` bounds the recursion depth. -/
def base_entity_getattr (server : PyVal → List (String × PyVal)) :
    Nat → List (String × PyVal) → String → AttrResult
  | 0, _, _ => AttrResult.diverge
  | Nat.succ fuel, d, item =>
    match dlookup d item with
    | some v => AttrResult.ok v d []
    | Option.none =>
      match base_entity_getattr server fuel d "url" with
      | AttrResult.diverge => AttrResult.diverge
      | AttrResult.attrErr i d1 log => AttrResult.attrErr i d1 log
      | AttrResult.ok u d1 log =>
        let d2 := dupdate d1 (server u)
        match dlookup d2 item with
        | some v => AttrResult.ok v d2 (log ++ [u])
        | Option.none => AttrResult.attrErr item d2 (log ++ [u])

/-- One page of a paginated listing response, the
`{"count", "next", "results"}` envelope: the raw item dicts of this
page and the opaque "next" link when there is one. -/
structure PageResponse (U : Type) (D : Type) where
  results : List D
  next : Option U

/-- A raw item dict wrapped into an entity object
(`self._obj_class(self._api_client, obj)`). -/
structure WrappedEntity (D : Type) where
  data : D

/-- The loop of `Collection._iter_chunks` after the first request:
yield the wrapped results of the current response; if the response
names a "next" link, request it with the collection's original
`query_params` and continue, otherwise stop.  Also records the
requests made.  `fuel` bounds the number of pages. -/
def iter_chunks_from {U Q D : Type} (api_request_fn : U → Q → PageResponse U D)
    (query_params : Q) :
    Nat → PageResponse U D → Option (List (WrappedEntity D) × List (U × Q))
  | 0, _ => Option.none
  | Nat.succ fuel, response =>
    let chunk := response.results.map (fun obj => WrappedEntity.mk obj)
    match response.next with
    | Option.none => some (chunk, [])
    | some u =>
      match iter_chunks_from api_request_fn query_params fuel (api_request_fn u query_params) with
      | Option.none => Option.none
      | some (items, log) => some (chunk ++ items, (u, query_params) :: log)

/-- One full iteration of a `Collection` (`__iter__` flattening
`_iter_chunks`): fetch page 1 at the collection URL with the current
filters, then follow "next" links.  Returns the yielded entities and
the request log; each fresh call starts here again, since the
generator holds no state on the collection instance across calls. -/
def collection_iterate {U Q D : Type} (api_request_fn : U → Q → PageResponse U D)
    (start_url : U) (query_params : Q) (fuel : Nat) :
    Option (List (WrappedEntity D) × List (U × Q)) :=
  match iter_chunks_from api_request_fn query_params fuel (api_request_fn start_url query_params) with
  | Option.none => Option.none
  | some (items, log) => some (items, (start_url, query_params) :: log)

/-- A server holding `items`, split into pages of `page_size` entries:
page `q` (0-based) serves the corresponding slice and names page
`q + 1` as "next" exactly when further items remain. -/
def paged_server {Q D : Type} (items : List D) (page_size : Nat) :
    Nat → Q → PageResponse Nat D :=
  fun page _ =>
    { results := (items.drop (page * page_size)).take page_size,
      next := if (page + 1) * page_size < items.length then some (page + 1) else Option.none }

/-- The filter state of an `AlertCollection` as set by its `__init__`.
`filter_enabled` and `only_alerts` are booleans; the remaining fields
hold whatever Python value was passed (`None` by default, strings or
numbers when filtered). -/
structure AlertCollection where
  filter_enabled : Bool
  only_alerts : Bool
  alert_types : PyVal
  start_date : PyVal
  end_date : PyVal
  id_greater_than : PyVal
  username : PyVal
  source : PyVal
  keywords : PyVal
  decoy_name : PyVal

/-- `AlertCollection._get_query_params`, including the fixed
`per_page=ENTRIES_PER_PAGE` (500) entry and the `id_gt` renaming. -/
def alert_get_query_params (c : AlertCollection) : List (String × PyVal) :=
  [("filter_enabled", PyVal.pyBool c.filter_enabled),
   ("only_alerts", PyVal.pyBool c.only_alerts),
   ("alert_types", c.alert_types),
   ("per_page", PyVal.pyNum 500),
   ("start_date", c.start_date),
   ("end_date", c.end_date),
   ("id_gt", c.id_greater_than),
   ("username", c.username),
   ("source", c.source),
   ("keywords", c.keywords),
   ("decoy_name", c.decoy_name)]

/-- The `" ".join(alert_types) if alert_types else ""` formatting in
`AlertCollection.filter`; `alert_types` is documented as a list of
strings, with `None` as default. -/
def format_alert_types : Option (List String) → String
  | some (x :: xs) => String.intercalate " " (x :: xs)
  | _ => ""

/-- `AlertCollection.filter`: the method reads nothing from and writes
nothing to the receiver; it only constructs and returns a fresh
`AlertCollection` from its arguments.  Modelled as
receiver-state-in / receiver-state-out plus the returned collection. -/
def alert_collection_filter (self : AlertCollection)
    (filter_enabled only_alerts : Bool) (alert_types : Option (List String))
    (start_date end_date id_greater_than username source keywords decoy_name : PyVal) :
    AlertCollection × AlertCollection :=
  (self,
   { filter_enabled := filter_enabled,
     only_alerts := only_alerts,
     alert_types := PyVal.pyStr (format_alert_types alert_types),
     start_date := start_date,
     end_date := end_date,
     id_greater_than := id_greater_than,
     username := username,
     source := source,
     keywords := keywords,
     decoy_name := decoy_name })

/-- The filter state of an `EndpointCollection` as set by its
`__init__` (defaults: `filter_enabled=False`, `keywords=""`,
`statuses=None`, `deploy_groups=None`). -/
structure EndpointCollection where
  filter_enabled : Bool
  keywords : PyVal
  statuses : PyVal
  deploy_groups : PyVal

/-- `EndpointCollection._get_query_params`. -/
def endpoint_get_query_params (c : EndpointCollection) : List (String × PyVal) :=
  [("filter_enabled", PyVal.pyBool c.filter_enabled),
   ("keywords", c.keywords),
   ("statuses", c.statuses),
   ("deploy_groups", c.deploy_groups)]

/-- `EndpointCollection.filter`: constructs and returns a fresh
collection with `filter_enabled=True`, the given keywords, and the
constructor defaults for the remaining fields; the receiver is not
touched. -/
def endpoint_collection_filter (self : EndpointCollection) (keywords : PyVal) :
    EndpointCollection × EndpointCollection :=
  (self,
   { filter_enabled := true,
     keywords := keywords,
     statuses := PyVal.pyNone,
     deploy_groups := PyVal.pyNone })

/-- A request issued through the transport, as the guard claims see
it: URL, HTTP method and JSON body. -/
structure WireRequest where
  url : String
  method : String
  body : List (String × PyVal)

/-- Client-side errors raised before any network call. -/
inductive SdkError where
  | badParam

/-- Python's `isinstance(v, numbers.Number)`: true for ints and floats,
and also for booleans (`bool` is an `int` subclass). -/
def py_isinstance_number : PyVal → Bool
  | PyVal.pyNum _ => true
  | PyVal.pyBool _ => true
  | _ => false

/-- Python's `type(v) != list` test, negated: true exactly on lists. -/
def py_type_is_list : PyVal → Bool
  | PyVal.pyList _ => true
  | _ => false

/-- `Breadcrumb.add_to_group`: reject a non-`Number` deployment group
id with `BadParamError` before any request; otherwise POST
`{deployment_group_id: id}` to `url + "add_to_group/"` and then
`load()` (a GET of the entity URL).  Returns the raised error, if any,
together with the requests issued. -/
def breadcrumb_add_to_group (self_url : String) (deployment_group_id : PyVal) :
    Option SdkError × List WireRequest :=
  if !(py_isinstance_number deployment_group_id) then
    (some SdkError.badParam, [])
  else
    (Option.none,
     [{ url := self_url ++ "add_to_group/", method := "post",
        body := [("deployment_group_id", deployment_group_id)] },
      { url := self_url, method := "get", body := [] }])

/-- The filter state of an `AuditLogLineCollection` as set by its
`__init__`. -/
structure AuditLogLineCollection where
  filter_enabled : Bool
  end_date : PyVal
  start_date : PyVal
  username : PyVal
  category : PyVal
  event_type : PyVal
  object_ids : PyVal
  item : PyVal

/-- `AuditLogLineCollection.filter`: for each of `username`,
`event_type` and `category`, a truthy value that is not a `list`
raises `BadParamError`; otherwise a fresh collection is constructed.
The source iterates a Python-2 dict whose order is unspecified, so
which offending parameter is named first is unspecified; only whether
an error is raised is modelled.  The method issues no request in
either case. -/
def audit_log_filter (filter_enabled : Bool)
    (item username event_type start_date end_date object_ids category : PyVal) :
    Except SdkError AuditLogLineCollection × List WireRequest :=
  if truthy username && !py_type_is_list username then
    (Except.error SdkError.badParam, [])
  else if truthy event_type && !py_type_is_list event_type then
    (Except.error SdkError.badParam, [])
  else if truthy category && !py_type_is_list category then
    (Except.error SdkError.badParam, [])
  else
    (Except.ok
      { filter_enabled := filter_enabled, end_date := end_date, start_date := start_date,
        username := username, category := category, event_type := event_type,
        object_ids := object_ids, item := item },
     [])

/-- `Entity._partial_update_item`: drop falsy values from the data
dict; if anything is left, PATCH it to the entity URL (`server` maps
the sent body to the response dict) and merge the response into the
local fields; if nothing is left, do not send a request at all.
Returns the new local field dict and the list of bodies sent. -/
def part_update_item (server : List (String × PyVal) → List (String × PyVal))
    (d data : List (String × PyVal)) :
    List (String × PyVal) × List (List (String × PyVal)) :=
  let non_empty_data := data.filter (fun p => truthy p.2)
  if non_empty_data.isEmpty then
    (d, [])
  else
    (dupdate d (server non_empty_data), [non_empty_data])

/-- The parameter names of `APIClient.__init__` (after `self`), from
the source: `host`, `api_key`, `api_secret`, `certificate`. -/
def apiclient_init_params : List String :=
  ["host", "api_key", "api_secret", "certificate"]

/-- The keyword arguments `mazerunner.connect` passes to
`APIClient(...)` beyond its four positional arguments: `use_http`. -/
def connect_keyword_args : List String :=
  ["use_http"]

/-- Python call semantics: a keyword argument whose name is not among
the callee's parameters makes the call raise `TypeError` before the
function body runs.  Returns the first unexpected keyword, if any. -/
def unexpected_keyword (params : List String) (kwargs : List String) : Option String :=
  kwargs.find? (fun k => !params.contains k)

/-- A concrete streaming DELETE response: 200, JSON body. -/
def stream_delete_resp : HttpResp :=
  { status_code := 200, content := "payload", contentType := some "application/json",
    jsonBody := some (PyVal.pyStr "ok") }

/-- A concrete "next" page link whose embedded query string collides
with the collection's filters on `per_page`. -/
def c7_next_link : PyUrl :=
  { address := "https://mr/api/v1.0/alert/",
    queryPairs := [("page", "2"), ("per_page", "10")] }

/-- Concrete originally-selected filter parameters of a collection. -/
def c7_filters : List (String × QueryVal) :=
  [("per_page", QueryVal.raw (PyVal.pyNum 500))]

theorem dlookup_parse_qs_sets (ps : List (String × String)) (k : String) :
    dlookup (parse_qs_sets ps) k =
      if k ∈ ps.map Prod.fst then
        some (QueryVal.qset (((ps.filter (fun p => p.1 = k)).map Prod.snd).dedup))
      else Option.none := by
  have gen : ∀ (ks : List String) (f : String → QueryVal),
      dlookup (ks.map (fun k0 => (k0, f k0))) k = if k ∈ ks then some (f k) else Option.none := by
    intro ks f
    induction ks with
    | nil => simp [dlookup]
    | cons a rest ih =>
      by_cases ha : a = k
      · subst ha; simp [dlookup]
      · have hka : ¬ k = a := fun h => ha h.symm
        simp [dlookup, ha, hka, ih]
  unfold parse_qs_sets
  rw [gen]
  by_cases hmem : k ∈ ps.map Prod.fst
  · simp [hmem, List.mem_dedup]
  · simp [hmem, List.mem_dedup]

theorem dlookup_api_request_query (u : PyUrl) (qp : List (String × QueryVal)) (k : String)
    (h : (qp.map Prod.fst).Nodup) :
    dlookup (api_request_query u qp) k =
      orLookup (dlookup qp k) (dlookup (parse_qs_sets u.queryPairs) k) := by
  unfold api_request_query
  by_cases hq : qp.isEmpty
  · have : qp = [] := by
      cases qp
      · rfl
      · simp at hq
    subst this
    simp [dlookup, orLookup]
  · rw [if_neg hq]
    exact dlookup_dupdate qp (parse_qs_sets u.queryPairs) k h

theorem base_entity_getattr_succ (server : PyVal → List (String × PyVal)) (fuel : Nat)
    (d : List (String × PyVal)) (item : String) :
    base_entity_getattr server (fuel + 1) d item =
      match dlookup d item with
      | some v => AttrResult.ok v d []
      | Option.none =>
        match base_entity_getattr server fuel d "url" with
        | AttrResult.diverge => AttrResult.diverge
        | AttrResult.attrErr i d1 log => AttrResult.attrErr i d1 log
        | AttrResult.ok u d1 log =>
          match dlookup (dupdate d1 (server u)) item with
          | some v => AttrResult.ok v (dupdate d1 (server u)) (log ++ [u])
          | Option.none => AttrResult.attrErr item (dupdate d1 (server u)) (log ++ [u]) := rfl

/-- C4: the claim says `connect(host, key, secret, certificate, use_http?)`
produces a client whose first action fetches the URL directory.  In the
source, `connect` always passes the keyword argument `use_http` to
`APIClient(...)`, but `APIClient.__init__` accepts only
`host, api_key, api_secret, certificate`; by Python call semantics the
call raises `TypeError` for the unexpected keyword before any request
is made, so `connect` never produces a client at all. -/
theorem connect_passes_unexpected_use_http_keyword :
    unexpected_keyword apiclient_init_params connect_keyword_args = some "use_http"
    ∧ (unexpected_keyword apiclient_init_params connect_keyword_args).isSome = true := by
  constructor
  · rfl
  · rfl

/-- C5: `Entity._partial_update_item` drops every falsy-valued key from
the outgoing body, so the PATCH body (when one is sent at all) contains
exactly the keys of `data` with truthy values; with
`{name: "X", description: None}` only `{name: "X"}` goes on the wire. -/
theorem part_update_sends_exactly_truthy :
    ∀ (server : List (String × PyVal) → List (String × PyVal)) (d data : List (String × PyVal)),
      ((part_update_item server d data).2 =
        (if (data.filter (fun p => truthy p.2)).isEmpty then []
         else [data.filter (fun p => truthy p.2)]))
      ∧ (∀ body, body ∈ (part_update_item server d data).2 →
           ∀ k v, (k, v) ∈ body ↔ ((k, v) ∈ data ∧ truthy v = true))
      ∧ (part_update_item server d
           [("name", PyVal.pyStr "X"), ("description", PyVal.pyNone)]).2 =
          [[("name", PyVal.pyStr "X")]] := by
  intro server d data
  refine ⟨?_, ?_, ?_⟩
  · unfold part_update_item
    by_cases h : (data.filter (fun p => truthy p.2)).isEmpty <;> simp [h]
  · intro body hbody k v
    unfold part_update_item at hbody
    by_cases h : (data.filter (fun p => truthy p.2)).isEmpty
    · simp [h] at hbody
    · simp [h] at hbody
      subst hbody
      simp [List.mem_filter]
  · rfl

/-- Witness for the falsy-dropping claim at a concrete input. -/
theorem part_update_sends_exactly_truthy_witness :
    (PyVal.pyStr "X", truthy (PyVal.pyStr "X")) ∈
        [(("name", PyVal.pyStr "X") : String × PyVal)].map (fun p => (p.2, truthy p.2)) ∧
      (part_update_item (fun b => b) []
        [("name", PyVal.pyStr "X"), ("description", PyVal.pyNone)]).2 =
        [[("name", PyVal.pyStr "X")]] := by
  refine ⟨by simp, ?_⟩
  exact (part_update_sends_exactly_truthy (fun b => b) []
    [("name", PyVal.pyStr "X"), ("description", PyVal.pyNone)]).2.2

/-- C6: `filter(...)` on an alert or endpoint collection returns a new
collection instance built from the newly supplied filter arguments and
leaves the receiver's own filter state (and hence the query parameters
used by later iteration or counting of the receiver) unchanged. -/
theorem filter_returns_new_collection :
    ∀ (A : AlertCollection) (fe oa : Bool) (ats : Option (List String))
      (sd ed ig un so kw dn : PyVal),
      ((alert_collection_filter A fe oa ats sd ed ig un so kw dn).1 = A
       ∧ alert_get_query_params (alert_collection_filter A fe oa ats sd ed ig un so kw dn).1
           = alert_get_query_params A
       ∧ (alert_collection_filter A fe oa ats sd ed ig un so kw dn).2
           = { filter_enabled := fe, only_alerts := oa,
               alert_types := PyVal.pyStr (format_alert_types ats),
               start_date := sd, end_date := ed, id_greater_than := ig,
               username := un, source := so, keywords := kw, decoy_name := dn })
      ∧ ∀ (E : EndpointCollection) (kw2 : PyVal),
          (endpoint_collection_filter E kw2).1 = E
          ∧ endpoint_get_query_params (endpoint_collection_filter E kw2).1
              = endpoint_get_query_params E
          ∧ (endpoint_collection_filter E kw2).2
              = { filter_enabled := true, keywords := kw2,
                  statuses := PyVal.pyNone, deploy_groups := PyVal.pyNone } := by
  intro A fe oa ats sd ed ig un so kw dn
  exact ⟨⟨rfl, rfl, rfl⟩, fun E kw2 => ⟨rfl, rfl, rfl⟩⟩

/-- C9: the pure client-side guards: a non-`Number` deployment group id
makes `Breadcrumb.add_to_group` raise `BadParamError` with no request
issued, and a truthy non-list `username`, `event_type` or `category`
makes `AuditLogLineCollection.filter` raise `BadParamError` with no
request issued. -/
theorem client_side_guards :
    ∀ (url : String) (v un et cat item sd ed oids : PyVal) (fe : Bool),
      (py_isinstance_number v = false →
         breadcrumb_add_to_group url v = (some SdkError.badParam, []))
      ∧ (truthy un = true → py_type_is_list un = false →
           audit_log_filter fe item un et sd ed oids cat
             = (Except.error SdkError.badParam, []))
      ∧ (truthy et = true → py_type_is_list et = false →
           audit_log_filter fe item un et sd ed oids cat
             = (Except.error SdkError.badParam, []))
      ∧ (truthy cat = true → py_type_is_list cat = false →
           audit_log_filter fe item un et sd ed oids cat
             = (Except.error SdkError.badParam, [])) := by
  intro url v un et cat item sd ed oids fe
  refine ⟨?_, ?_, ?_, ?_⟩
  · intro h
    unfold breadcrumb_add_to_group
    simp [h]
  · intro h1 h2
    unfold audit_log_filter
    simp [h1, h2]
  · intro h1 h2
    unfold audit_log_filter
    by_cases hu : (truthy un && !py_type_is_list un) = true
    · simp [hu]
    · simp only [hu, Bool.false_eq_true, if_false, h1, h2]
      simp
  · intro h1 h2
    unfold audit_log_filter
    by_cases hu : (truthy un && !py_type_is_list un) = true
    · simp [hu]
    · by_cases he : (truthy et && !py_type_is_list et) = true
      · simp [hu, he]
      · simp [hu, he, h1, h2]

/-- Witness for the client-side guard claim: the literal string "5" is
not a number, and a truthy string `username` is not a list. -/
theorem client_side_guards_witness :
    breadcrumb_add_to_group "https://mr/api/v1.0/breadcrumb/4/" (PyVal.pyStr "5")
        = (some SdkError.badParam, [])
    ∧ audit_log_filter true PyVal.pyNone (PyVal.pyStr "root") PyVal.pyNone
        PyVal.pyNone PyVal.pyNone PyVal.pyNone PyVal.pyNone
        = (Except.error SdkError.badParam, []) := by
  have h := client_side_guards "https://mr/api/v1.0/breadcrumb/4/" (PyVal.pyStr "5")
      (PyVal.pyStr "root") PyVal.pyNone PyVal.pyNone PyVal.pyNone PyVal.pyNone
      PyVal.pyNone PyVal.pyNone true
  exact ⟨h.1 rfl, h.2.1 rfl rfl⟩

/-- C10: for an entity whose field dict lacks the key `url`, any
attribute access on a key absent from the dict never terminates: the
miss handler calls `load`, `load` reads `self.url`, and that read
re-enters the miss handler for the still-absent `url` key; whatever
the recursion depth allowed, the access neither returns a value nor
raises the attribute-not-found error. -/
theorem getattr_diverges_without_url :
    ∀ (server : PyVal → List (String × PyVal)) (d : List (String × PyVal))
      (fuel : Nat) (k : String),
      dlookup d "url" = Option.none → dlookup d k = Option.none →
        base_entity_getattr server fuel d k = AttrResult.diverge := by
  intro server d fuel
  induction fuel with
  | zero => intro k _ _; rfl
  | succ n ih =>
    intro k hurl hk
    rw [base_entity_getattr_succ, hk, ih "url" hurl hurl]

/-- Witness for the divergence claim: a stub entity `{id: 1}` with no
`url`, accessed at the missing field `name`. -/
theorem getattr_diverges_without_url_witness :
    base_entity_getattr (fun _ => []) 5 [("id", PyVal.pyNum 1)] "name"
      = AttrResult.diverge :=
  getattr_diverges_without_url (fun _ => []) [("id", PyVal.pyNum 1)] 5 "name" rfl rfl

/-- C1: for an entity with a `url` and a key absent from its field
dict, the attribute access performs exactly one reload — a single GET
of the entity's url, whose response dict is merged into the local dict
with `dict.update` — and then returns the merged value if the key is
now present (later accesses of it fetch nothing), or raises
AttributeError if the key is still absent. -/
theorem lazy_field_single_reload :
    ∀ (server : PyVal → List (String × PyVal)) (d : List (String × PyVal))
      (k : String) (u : PyVal) (fuel fuel2 : Nat),
      dlookup d "url" = some u → dlookup d k = Option.none →
      (base_entity_getattr server (fuel + 1 + 1) d k =
         match dlookup (dupdate d (server u)) k with
         | some v => AttrResult.ok v (dupdate d (server u)) [u]
         | Option.none => AttrResult.attrErr k (dupdate d (server u)) [u])
      ∧ (∀ v, dlookup (dupdate d (server u)) k = some v →
           base_entity_getattr server (fuel2 + 1) (dupdate d (server u)) k
             = AttrResult.ok v (dupdate d (server u)) []) := by
  intro server d k u fuel fuel2 hurl hk
  constructor
  · rw [base_entity_getattr_succ, hk, base_entity_getattr_succ, hurl]
    cases h : dlookup (dupdate d (server u)) k <;> simp [h]
  · intro v hv
    rw [base_entity_getattr_succ, hv]

/-- Witness for the lazy-field claim: a `{id, url}` stub grows by one
GET of its url and then serves `name` with no further fetch. -/
theorem lazy_field_single_reload_witness :
    base_entity_getattr (fun _ => [("name", PyVal.pyStr "svc1")]) 7
        [("id", PyVal.pyNum 1), ("url", PyVal.pyStr "u/")] "name"
      = AttrResult.ok (PyVal.pyStr "svc1")
          [("id", PyVal.pyNum 1), ("url", PyVal.pyStr "u/"), ("name", PyVal.pyStr "svc1")]
          [PyVal.pyStr "u/"]
    ∧ base_entity_getattr (fun _ => [("name", PyVal.pyStr "svc1")]) 1
        [("id", PyVal.pyNum 1), ("url", PyVal.pyStr "u/"), ("name", PyVal.pyStr "svc1")] "name"
      = AttrResult.ok (PyVal.pyStr "svc1")
          [("id", PyVal.pyNum 1), ("url", PyVal.pyStr "u/"), ("name", PyVal.pyStr "svc1")]
          [] := by
  have h := lazy_field_single_reload (fun _ => [("name", PyVal.pyStr "svc1")])
      [("id", PyVal.pyNum 1), ("url", PyVal.pyStr "u/")] "name" (PyVal.pyStr "u/") 5 0 rfl rfl
  constructor
  · exact h.1.trans (by rfl)
  · exact (h.2 (PyVal.pyStr "svc1") (by rfl)).trans (by rfl)

/-- C8: for every request URL and explicit query-parameter dict,
`api_request` parses the URL-embedded query string into per-key
deduplicated sets, merges it with the explicit parameters with the
explicit parameters winning on every key collision, and sends the
request to the URL rewritten without its original query string. -/
theorem query_params_merge :
    ∀ (u : PyUrl) (qp : List (String × QueryVal)) (k : String),
      (qp.map Prod.fst).Nodup →
      (dlookup (api_request_query u qp) k
         = orLookup (dlookup qp k) (dlookup (parse_qs_sets u.queryPairs) k))
      ∧ (∀ vs, dlookup (parse_qs_sets u.queryPairs) k = some (QueryVal.qset vs) →
           vs.Nodup ∧ ∀ s, s ∈ vs ↔ (k, s) ∈ u.queryPairs)
      ∧ (api_request_wire u qp).1 = { address := u.address, queryPairs := [] } := by
  intro u qp k hnodup
  refine ⟨dlookup_api_request_query u qp k hnodup, ?_, rfl⟩
  intro vs hvs
  rw [dlookup_parse_qs_sets] at hvs
  by_cases hmem : k ∈ u.queryPairs.map Prod.fst
  · rw [if_pos hmem] at hvs
    have hvs' : vs = ((u.queryPairs.filter (fun p => p.1 = k)).map Prod.snd).dedup := by
      have := Option.some.inj hvs
      cases this
      rfl
    subst hvs'
    constructor
    · exact List.nodup_dedup _
    · intro s
      simp only [List.mem_dedup, List.mem_map, List.mem_filter]
      constructor
      · rintro ⟨p, ⟨hp, hpk⟩, hps⟩
        have hpk' : p.1 = k := by simpa using hpk
        have : p = (k, s) := by
          cases p
          simp only [Prod.mk.injEq]
          exact ⟨hpk', hps⟩
        rw [← this]
        exact hp
      · intro h
        exact ⟨(k, s), ⟨h, by simp⟩, rfl⟩
  · rw [if_neg hmem] at hvs
    exact absurd hvs (by simp)

/-- Witness for the query-merge claim: a URL with a duplicated embedded
parameter and an explicit parameter colliding on key `a`. -/
theorem query_params_merge_witness :
    dlookup
        (api_request_query
          { address := "https://h/api/", queryPairs := [("a", "1"), ("a", "1"), ("b", "2")] }
          [("a", QueryVal.raw (PyVal.pyStr "x"))]) "a"
      = some (QueryVal.raw (PyVal.pyStr "x")) := by
  have h := query_params_merge
      { address := "https://h/api/", queryPairs := [("a", "1"), ("a", "1"), ("b", "2")] }
      [("a", QueryVal.raw (PyVal.pyStr "x"))] "a" (by simp)
  exact h.1.trans (by rfl)

/-- C7 counterexample: following the concrete next link
`...?page=2&per_page=10` while the collection's originally-selected
filters say `per_page=500`, the effective wire parameter for the
colliding key `per_page` is the filters' value, not the value embedded
in the next link's own query string — the next link's query string
does NOT take precedence. -/
theorem next_link_precedence_counterexample :
    dlookup (follow_next_request c7_next_link c7_filters).2 "per_page"
        = some (QueryVal.raw (PyVal.pyNum 500))
    ∧ dlookup (follow_next_request c7_next_link c7_filters).2 "per_page"
        ≠ some (QueryVal.qset ["10"]) := by
  constructor
  · rfl
  · intro h
    have h2 : some (QueryVal.raw (PyVal.pyNum 500)) = some (QueryVal.qset ["10"]) :=
      (rfl : dlookup (follow_next_request c7_next_link c7_filters).2 "per_page"
        = some (QueryVal.raw (PyVal.pyNum 500))).symm.trans h
    exact QueryVal.noConfusion (Option.some.inj h2)

/-- C7 amended: when a page response names a "next" link, the link is
followed and the loop keeps passing the collection's
originally-selected filter parameters on every follow-up request; on a
key collision between the link's embedded query string and those
filters, the FILTERS take precedence (by `dict.update` in
`api_request`), while keys found only in the link's query string
survive as deduplicated sets. -/
theorem next_link_filter_precedence :
    ∀ (u : PyUrl) (qp : List (String × QueryVal)) (k : String),
      (qp.map Prod.fst).Nodup →
      ((∀ v, dlookup qp k = some v → dlookup (follow_next_request u qp).2 k = some v)
       ∧ (dlookup qp k = Option.none →
            dlookup (follow_next_request u qp).2 k = dlookup (parse_qs_sets u.queryPairs) k))
      ∧ (∀ (U Q D : Type) (f : U → Q → PageResponse U D) (q : Q) (fuel : Nat)
           (resp : PageResponse U D) (out : List (WrappedEntity D) × List (U × Q)),
           iter_chunks_from f q fuel resp = some out → ∀ e ∈ out.2, e.2 = q) := by
  intro u qp k hnodup
  constructor
  · constructor
    · intro v hv
      show dlookup (api_request_query u qp) k = some v
      rw [dlookup_api_request_query u qp k hnodup, hv]
      rfl
    · intro hnone
      show dlookup (api_request_query u qp) k = _
      rw [dlookup_api_request_query u qp k hnodup, hnone]
      rfl
  · intro U Q D f q fuel
    induction fuel with
    | zero =>
      intro resp out h
      simp [iter_chunks_from] at h
    | succ n ih =>
      intro resp out h
      simp only [iter_chunks_from] at h
      cases hnext : resp.next with
      | none =>
        rw [hnext] at h
        have h' : some (resp.results.map (fun obj => WrappedEntity.mk obj),
            ([] : List (U × Q))) = some out := h
        have h'' := Option.some.inj h'
        intro e he
        rw [← h''] at he
        simp at he
      | some nu =>
        rw [hnext] at h
        have h' : (match iter_chunks_from f q n (f nu q) with
            | Option.none => (Option.none : Option (List (WrappedEntity D) × List (U × Q)))
            | some (items, log) =>
                some ((resp.results.map (fun obj => WrappedEntity.mk obj)) ++ items,
                  (nu, q) :: log)) = some out := h
        cases hrec : iter_chunks_from f q n (f nu q) with
        | none =>
          rw [hrec] at h'
          simp at h'
        | some pr =>
          rw [hrec] at h'
          obtain ⟨items, log⟩ := pr
          have h'' := Option.some.inj h'
          intro e he
          rw [← h''] at he
          rcases List.mem_cons.mp he with h1 | h2
          · rw [h1]
          · exact ih (f nu q) (items, log) hrec e h2

/-- Witness for the amended next-link claim at the concrete collision
input used in the counterexample's vicinity. -/
theorem next_link_filter_precedence_witness :
    dlookup
        (follow_next_request
          { address := "https://mr/api/v1.0/endpoint/",
            queryPairs := [("page", "3"), ("keywords", "old")] }
          [("keywords", QueryVal.raw (PyVal.pyStr "hr"))]).2 "keywords"
      = some (QueryVal.raw (PyVal.pyStr "hr")) := by
  have h := next_link_filter_precedence
      { address := "https://mr/api/v1.0/endpoint/",
        queryPairs := [("page", "3"), ("keywords", "old")] }
      [("keywords", QueryVal.raw (PyVal.pyStr "hr"))] "keywords" (by simp)
  exact h.1.1 (QueryVal.raw (PyVal.pyStr "hr")) (by rfl)

/-- C3 counterexample: a streaming DELETE request with a 200 JSON
response.  The claim orders the "null result for no-content or DELETE"
clause before the streaming clause, so it predicts a null result here;
the source checks `stream` first and returns the raw response handle. -/
theorem stream_delete_counterexample :
    api_request_outcome "delete" true true stream_delete_resp
        = ApiOutcome.rawResponse stream_delete_resp
    ∧ api_request_outcome "delete" true true stream_delete_resp
        ≠ ApiOutcome.noneResult := by
  constructor
  · rfl
  · intro h
    exact ApiOutcome.noConfusion
      ((rfl : api_request_outcome "delete" true true stream_delete_resp
          = ApiOutcome.rawResponse stream_delete_resp).symm.trans h)

/-- C3 amended: for every realistic status code (100–599), the
transport classifies exactly as the claim says once the streaming
clause is ordered before the no-content/DELETE clause: 4xx raises a
client validation failure with status and raw body, 5xx raises a
server failure with status and raw body, then a streaming request
returns the raw handle, then a DELETE method or a 204 status yields a
null result, then a non-JSON-expecting request returns the raw bytes,
then a non-`application/json` content type raises a client validation
failure even on 2xx, and a JSON parse failure raises a client
validation failure. -/
theorem status_classification_amended :
    ∀ (method : String) (stream expect_json_response : Bool) (resp : HttpResp),
      100 ≤ resp.status_code → resp.status_code ≤ 599 →
      api_request_outcome method stream expect_json_response resp
        = outcome_spec method stream expect_json_response resp := by
  have h4 : ∀ s : Nat, s < 600 → 100 ≤ s →
      (py_startswith (Nat.repr s) "4" = decide (400 ≤ s ∧ s ≤ 499)) := by decide
  have h5 : ∀ s : Nat, s < 600 → 100 ≤ s →
      (py_startswith (Nat.repr s) "5" = decide (500 ≤ s ∧ s ≤ 599)) := by decide
  intro m st ej r h1 h2
  have hb : r.status_code < 600 := Nat.lt_succ_of_le h2
  have e4 := h4 r.status_code hb h1
  have e5 := h5 r.status_code hb h1
  unfold api_request_outcome outcome_spec
  by_cases c4 : 400 ≤ r.status_code ∧ r.status_code ≤ 499
  · rw [e4]
    simp [c4]
  · rw [e4]
    by_cases c5 : 500 ≤ r.status_code ∧ r.status_code ≤ 599
    · rw [e5]
      simp [c4, c5]
    · rw [e5]
      simp [c4, c5, NO_CONTENT]

/-- Witness for the amended classification at a 404 with a body: a
client validation failure carrying the status code and raw body. -/
theorem status_classification_amended_witness :
    api_request_outcome "get" false true
        { status_code := 404, content := "missing", contentType := Option.none,
          jsonBody := Option.none }
      = ApiOutcome.validationError 404 "missing" := by
  have h := status_classification_amended "get" false true
      { status_code := 404, content := "missing", contentType := Option.none,
        jsonBody := Option.none } (by decide) (by decide)
  exact h.trans (by rfl)

theorem iter_chunks_from_succ {U Q D : Type} (f : U → Q → PageResponse U D) (q : Q)
    (fuel : Nat) (resp : PageResponse U D) :
    iter_chunks_from f q (fuel + 1) resp =
      match resp.next with
      | Option.none => some (resp.results.map (fun obj => WrappedEntity.mk obj), [])
      | some u =>
        match iter_chunks_from f q fuel (f u q) with
        | Option.none => Option.none
        | some (items, log) =>
            some (resp.results.map (fun obj => WrappedEntity.mk obj) ++ items,
              (u, q) :: log) := rfl

theorem paged_iter_from (D Q : Type) (items : List D) (P : Nat) (qp : Q) (hP : 0 < P) :
    ∀ (fuel q : Nat), items.length ≤ (q + fuel) * P →
      ∃ log, iter_chunks_from (paged_server items P) qp (fuel + 1)
          (paged_server items P q qp)
        = some ((items.drop (q * P)).map (fun d => WrappedEntity.mk d), log)
        ∧ ∀ e ∈ log, e.2 = qp := by
  intro fuel
  induction fuel with
  | zero =>
    intro q hq
    have hq' : items.length ≤ q * P := by simpa using hq
    have hdrop : items.drop (q * P) = [] := List.drop_eq_nil_of_le hq'
    have hnext : ¬ ((q + 1) * P < items.length) := by
      have h2 : q * P ≤ (q + 1) * P := Nat.mul_le_mul_right P (Nat.le_succ q)
      omega
    have hpage : paged_server items P q qp =
        { results := items.drop (q * P), next := Option.none } := by
      unfold paged_server
      simp [hnext, hdrop]
    refine ⟨[], ?_, by simp⟩
    rw [hpage]
    exact rfl
  | succ n ih =>
    intro q hq
    by_cases hnext : (q + 1) * P < items.length
    · have hq2 : items.length ≤ (q + 1 + n) * P := by
        have e : q + (n + 1) = q + 1 + n := by omega
        rw [e] at hq
        exact hq
      obtain ⟨log, hlog, hall⟩ := ih (q + 1) hq2
      have hpage : paged_server items P q qp =
          { results := (items.drop (q * P)).take P, next := some (q + 1) } := by
        unfold paged_server
        simp [hnext]
      refine ⟨(q + 1, qp) :: log, ?_, ?_⟩
      · rw [hpage, iter_chunks_from_succ]
        simp only [hlog]
        have hd : (items.drop (q * P)).drop P = items.drop ((q + 1) * P) := by
          rw [List.drop_drop]
          congr 1
          ring
        have hsplit : (items.drop (q * P)).take P ++ items.drop ((q + 1) * P)
            = items.drop (q * P) := by
          rw [← hd, List.take_append_drop]
        simp only [← List.map_append, hsplit]
      · intro e he
        rcases List.mem_cons.mp he with h1 | h2
        · rw [h1]
        · exact hall e h2
    · have hq3 : items.length ≤ (q + 1) * P := by omega
      have hres : (items.drop (q * P)).take P = items.drop (q * P) := by
        apply List.take_of_length_le
        rw [List.length_drop]
        have e : (q + 1) * P = q * P + P := by ring
        omega
      have hpage : paged_server items P q qp =
          { results := items.drop (q * P), next := Option.none } := by
        unfold paged_server
        simp [hnext, hres]
      refine ⟨[], ?_, by simp⟩
      rw [hpage]
      exact rfl

/-- C2: over a server holding N items split into pages of size P > 0,
every fresh iteration call (any sufficient fuel) yields exactly the N
seeded items, each exactly once and in order, by first fetching the
first page with the collection's current filters (the head of the
request log) and then following each response's "next" link — always
re-sending the same filters — until no link is given. -/
theorem pagination_yields_each_item_once :
    ∀ (D Q : Type) (items : List D) (P : Nat) (qp : Q), 0 < P →
      ∀ fuel, items.length ≤ fuel * P →
        ∃ log,
          collection_iterate (paged_server items P) 0 qp (fuel + 1)
            = some (items.map (fun d => WrappedEntity.mk d), ((0 : Nat), qp) :: log)
          ∧ ∀ e ∈ log, e.2 = qp := by
  intro D Q items P qp hP fuel hfuel
  obtain ⟨log, hlog, hall⟩ := paged_iter_from D Q items P qp hP fuel 0 (by simpa using hfuel)
  refine ⟨log, ?_, hall⟩
  unfold collection_iterate
  rw [hlog]
  simp

/-- Witness for the pagination claim: five items in pages of two are
yielded exactly once each, over three page requests that all carry the
filter parameters. -/
theorem pagination_yields_each_item_once_witness :
    collection_iterate (paged_server [10, 11, 12, 13, 14] 2) 0 "f" 4
      = some ([WrappedEntity.mk 10, WrappedEntity.mk 11, WrappedEntity.mk 12,
               WrappedEntity.mk 13, WrappedEntity.mk 14],
              [(0, "f"), (1, "f"), (2, "f")]) := by
  obtain ⟨log, hlog, hall⟩ := pagination_yields_each_item_once Nat String
      [10, 11, 12, 13, 14] 2 "f" (by decide) 3 (by decide)
  have hval : collection_iterate (paged_server [10, 11, 12, 13, 14] 2) 0 "f" 4
      = some ([WrappedEntity.mk 10, WrappedEntity.mk 11, WrappedEntity.mk 12,
               WrappedEntity.mk 13, WrappedEntity.mk 14],
              [(0, "f"), (1, "f"), (2, "f")]) := by rfl
  have e := hlog.symm.trans hval
  have elog : ((0, "f") :: log : List (Nat × String))
      = [(0, "f"), (1, "f"), (2, "f")] := by
    have e2 := Option.some.inj e
    exact congrArg Prod.snd e2
  exact hlog.trans (by rw [elog]; rfl)
